import Mathlib

/-!
Verification of the trip financial ledger engine of the tms-bckend
repository.  The definitions below are a shallow embedding of the
JavaScript controllers (`tripController.js`, `ledgerController.js`,
`disputeController.js`).  JavaScript numbers are modelled as rationals
(`Rat`), Mongo documents as Lean structures, the Mongo collections as
Lean lists in insertion order (`findOne` without a sort returns the
first match in natural order), and fallible request handlers as
`Except String` where the `String` is the error message of the JSON
response.  Optional / possibly-`undefined` request fields are `Option`.
-/

/- Batteries marks the `Rat` arithmetic operations `@[irreducible]`, which
blocks definitional evaluation of the embedded handlers on concrete inputs
(needed by the witnesses and counterexamples below).  Restore their normal
reducibility; this is a hint to the elaborator only and does not affect
soundness. -/
set_option allowUnsafeReducibility true in
attribute [semireducible] Rat.add Rat.sub Rat.mul Rat.inv Rat.ofScientific

namespace TMS

/-- Direction of a ledger entry, the `direction` field of the Ledger model. -/
inductive Direction where
  | credit
  | debit
deriving DecidableEq, Repr

/-- One element of `trip.onTripPayments` (tripController.js, `addPayment`). -/
structure Payment where
  amount : Rat
  reason : String
  addedBy : Option Nat
  addedByRole : String
deriving DecidableEq, Repr

/-- The `trip.deductions` bundle.  Numeric fields are stored after the
`parseFloat(x) || 0` coercion the controllers apply when reading them. -/
structure Deductions where
  cess : Rat
  kata : Rat
  excessTonnage : Rat
  halting : Rat
  expenses : Rat
  beta : Rat
  others : Rat
  othersReason : String
  addedBy : Option Nat
  addedByRole : Option String
deriving DecidableEq, Repr

/-- Deductions of a freshly created trip (Mongo schema defaults: all zero). -/
def Deductions.zero : Deductions :=
  { cess := 0, kata := 0, excessTonnage := 0, halting := 0, expenses := 0
    beta := 0, others := 0, othersReason := "", addedBy := none, addedByRole := none }

/-- A Trip document, restricted to the fields the financial engine reads. -/
structure Trip where
  id : Nat
  lrNumber : Option String
  tripIdField : Option String
  isBulk : Bool
  freight : Rat
  advance : Rat
  balance : Rat
  finalBalance : Rat
  deductions : Deductions
  onTripPayments : List Payment
  status : String
  agent : Nat
  closedBy : Option Nat
deriving DecidableEq, Repr

/-- A Ledger document, restricted to the fields the engine reads or writes. -/
structure LedgerEntry where
  id : Nat
  tripId : Option Nat
  lrNumber : Option String
  description : String
  entryType : String
  amount : Rat
  balance : Rat
  agent : Nat
  direction : Direction
  isInformational : Bool
deriving DecidableEq, Repr

/-- A Dispute document (only the fields `closeTrip` / `resolveDispute` read). -/
structure Dispute where
  tripId : Nat
  status : String
deriving DecidableEq, Repr

/-- The mutable world: the trip under consideration, the Ledger collection in
insertion order, the Dispute collection, and the id counter standing in for
Mongo object-id generation. -/
structure St where
  trip : Trip
  ledger : List LedgerEntry
  disputes : List Dispute
  nextId : Nat
deriving DecidableEq, Repr

/-- Sum of the six additive deduction categories, as recomputed by
`addPayment` / `updateDeductions` / `closeTrip` (`totalAdditions`). -/
def totalAdditions (d : Deductions) : Rat :=
  d.cess + d.kata + d.excessTonnage + d.halting + d.expenses + d.others

/-- The `reduce((sum, p) => sum + (p.amount || 0), 0)` fold over a payment list. -/
def totalPayments (ps : List Payment) : Rat :=
  ps.foldl (fun s p => s + p.amount) 0

/-- The balance formula the controllers assign to `trip.balance` after every
mutation: `(freight - advance) + totalAdditions - beta - totalPayments`. -/
def tripBalanceFormula (t : Trip) : Rat :=
  (t.freight - t.advance) + totalAdditions t.deductions - t.deductions.beta
    - totalPayments t.onTripPayments

/-- Reassign `trip.balance` from the current fields, as each mutating handler
does just before `trip.save()`. -/
def recalcBalance (t : Trip) : Trip :=
  { t with balance := tripBalanceFormula t }

/-- Input of `addPayment` (`req.body` plus the authenticated context). -/
structure PaymentInput where
  amount : Rat
  reason : String
  mode : Option String
  bank : Option String
  agentId : Option Nat
  userRole : Option String
  userId : Option Nat
deriving DecidableEq, Repr

/-- Payer resolution of `addPayment` (tripController.js lines 572-585): a
Finance payer must select an agent, otherwise the authenticated payer pays. -/
def resolveTarget (inp : PaymentInput) : Except String Nat :=
  if inp.userRole = some "Finance" then
    match inp.agentId with
    | none => .error "Agent selection is required for Finance payments"
    | some a => .ok a
  else
    match inp.userId with
    | none => .error "User ID is required for Agent payments"
    | some u => .ok u

/-- The trip-mutating part of `addPayment` (tripController.js lines 552-619):
status check, payer resolution, payment push and balance recomputation.
Returns the updated trip together with the resolved target agent. -/
def addPaymentCore (t : Trip) (inp : PaymentInput) : Except String (Trip × Nat) :=
  if t.status ≠ "Active" then
    .error "Mid-trip payments can only be added for Active trips"
  else
    match resolveTarget inp with
    | .error e => .error e
    | .ok target =>
        let payment : Payment :=
          { amount := inp.amount
            reason := inp.reason
            addedBy := inp.userId <|> some target
            addedByRole := inp.userRole.getD "Agent" }
        .ok (recalcBalance { t with onTripPayments := t.onTripPayments ++ [payment] },
          target)

/-- A `req.body` patch for `updateDeductions`; absent fields are `none`. -/
structure DeductionsPatch where
  cess : Option Rat
  kata : Option Rat
  excessTonnage : Option Rat
  halting : Option Rat
  expenses : Option Rat
  beta : Option Rat
  others : Option Rat
  othersReason : Option String
  addedBy : Option Nat
  addedByRole : Option String
deriving DecidableEq, Repr

/-- The spread-merge `trip.deductions = { ...trip.deductions, ...req.body }`. -/
def mergeDeductions (d : Deductions) (p : DeductionsPatch) : Deductions :=
  { cess := p.cess.getD d.cess
    kata := p.kata.getD d.kata
    excessTonnage := p.excessTonnage.getD d.excessTonnage
    halting := p.halting.getD d.halting
    expenses := p.expenses.getD d.expenses
    beta := p.beta.getD d.beta
    others := p.others.getD d.others
    othersReason := p.othersReason.getD d.othersReason
    addedBy := p.addedBy <|> d.addedBy
    addedByRole := p.addedByRole <|> d.addedByRole }

/-- The merged and re-balanced trip `updateDeductions` saves
(tripController.js lines 828-863). -/
def mergedTrip (t : Trip) (p : DeductionsPatch) : Trip :=
  recalcBalance { t with deductions := mergeDeductions t.deductions p }

/-- The trip-mutating part of `updateDeductions` (tripController.js lines
808-863): Completed-trip check, patch merge and balance recomputation. -/
def updateDeductionsCore (t : Trip) (p : DeductionsPatch) : Except String Trip :=
  if t.status = "Completed" then
    .error "Cannot update deductions for completed trips"
  else
    .ok (mergedTrip t p)

/-- Validated input of `createTrip`, after the `parseFloat(x) || 0` coercions. -/
structure CreateInput where
  lrNumber : Option String
  tripIdField : Option String
  isBulk : Bool
  freightAmount : Rat
  advancePaid : Rat
  agentId : Option Nat
  driverPhoneNumber : Option String
deriving DecidableEq, Repr

/-- The trip document built by `Trip.create` in `createTrip` (tripController.js
lines 266-295): bulk trips force freight and advance to zero, the initial
balance is `freight - advance`, the status is Active. -/
def mkNewTrip (inp : CreateInput) (agentId : Nat) (tripId : Nat) : Trip :=
  let freight : Rat := if inp.isBulk then 0 else inp.freightAmount
  let advance : Rat := if inp.isBulk then 0 else inp.advancePaid
  { id := tripId
    lrNumber := inp.lrNumber
    tripIdField := inp.tripIdField <|> inp.lrNumber
    isBulk := inp.isBulk
    freight := freight
    advance := advance
    balance := freight - advance
    finalBalance := 0
    deductions := Deductions.zero
    onTripPayments := []
    status := "Active"
    agent := agentId
    closedBy := none }

/-- A balance-affecting trip operation, for invariant statements over
arbitrary operation sequences. -/
inductive TripOp where
  | pay (inp : PaymentInput)
  | deduct (p : DeductionsPatch)

/-- Run one operation on a trip; a handler that responds with an error status
leaves the stored trip unchanged. -/
def applyTripOp (t : Trip) (op : TripOp) : Trip :=
  match op with
  | .pay inp =>
      match addPaymentCore t inp with
      | .ok (t', _) => t'
      | .error _ => t
  | .deduct p =>
      match updateDeductionsCore t p with
      | .ok t' => t'
      | .error _ => t

/-- Statement of the spec's balance invariant for a trip. -/
def balInv (t : Trip) : Prop :=
  t.balance = tripBalanceFormula t

theorem balInv_mkNewTrip (inp : CreateInput) (agentId tripId : Nat) :
    balInv (mkNewTrip inp agentId tripId) := by
  simp [balInv, mkNewTrip, tripBalanceFormula, totalAdditions, totalPayments,
    Deductions.zero]

theorem balInv_applyTripOp (t : Trip) (op : TripOp) (h : balInv t) :
    balInv (applyTripOp t op) := by
  cases op with
  | pay inp =>
      simp only [applyTripOp]
      by_cases hs : t.status = "Active"
      · cases hAg : resolveTarget inp with
        | ok a =>
            simp [addPaymentCore, hs, hAg, balInv, recalcBalance,
              tripBalanceFormula, totalAdditions, totalPayments]
        | error e => simp [addPaymentCore, hs, hAg, h]
      · simp [addPaymentCore, hs, h]
  | deduct p =>
      simp only [applyTripOp]
      by_cases hs : t.status = "Completed"
      · simp [updateDeductionsCore, hs, h]
      · simp [updateDeductionsCore, hs, balInv, mergedTrip, recalcBalance,
          tripBalanceFormula, totalAdditions, totalPayments]

theorem balInv_foldl (ops : List TripOp) (t : Trip) (h : balInv t) :
    balInv (ops.foldl applyTripOp t) := by
  induction ops generalizing t with
  | nil => exact h
  | cons op rest ih => exact ih _ (balInv_applyTripOp t op h)

/-- C1: for every non-bulk trip, after any sequence of addPayment and
updateDeductions operations, `trip.balance` equals
`(freight - advance) + (cess + kata + excessTonnage + halting + expenses +
others) - beta - Σ payment.amount`. -/
theorem C1_balance_invariant (inp : CreateInput) (agentId tripId : Nat)
    (ops : List TripOp) (hbulk : inp.isBulk = false) :
    (ops.foldl applyTripOp (mkNewTrip inp agentId tripId)).balance =
      tripBalanceFormula (ops.foldl applyTripOp (mkNewTrip inp agentId tripId)) := by
  have _ := hbulk
  exact balInv_foldl ops _ (balInv_mkNewTrip inp agentId tripId)

/-- Example payment input for witnesses: an Agent-role payment of 1500. -/
def exPayInput : PaymentInput :=
  { amount := 1500, reason := "fuel", mode := none, bank := none,
    agentId := none, userRole := some "Agent", userId := some 7 }

/-- Example deductions patch for witnesses: cess 200 and beta 300. -/
def exDedPatch : DeductionsPatch :=
  { cess := some 200, kata := none, excessTonnage := none, halting := none,
    expenses := none, beta := some 300, others := none, othersReason := none,
    addedBy := none, addedByRole := none }

/-- Example non-bulk creation input for witnesses. -/
def exCreateInput : CreateInput :=
  { lrNumber := some "LR1", tripIdField := none, isBulk := false,
    freightAmount := 10000, advancePaid := 2000, agentId := some 7,
    driverPhoneNumber := some "999" }

/-- Witness for C1 at a concrete non-bulk trip and operation sequence. -/
theorem C1_balance_invariant_witness :
    exCreateInput.isBulk = false ∧
    ([TripOp.pay exPayInput, TripOp.deduct exDedPatch].foldl applyTripOp
        (mkNewTrip exCreateInput 7 1)).balance =
      tripBalanceFormula
        ([TripOp.pay exPayInput, TripOp.deduct exDedPatch].foldl applyTripOp
          (mkNewTrip exCreateInput 7 1)) :=
  ⟨rfl, C1_balance_invariant exCreateInput 7 1 _ rfl⟩

/-! ## Ledger folds -/

/-- The fold step shared by every in-controller balance computation:
Credit adds the amount, Debit subtracts it. -/
def foldStep (s : Rat) (e : LedgerEntry) : Rat :=
  match e.direction with
  | .credit => s + e.amount
  | .debit => s - e.amount

/-- The in-controller agent balance: `Ledger.find({ agent: agentId })` followed
by `reduce` over Credit/Debit, as written in `addPayment`, `updateDeductions`,
`closeTrip` and `transferToAgent`.  Note that no entry is excluded: the
`isInformational` flag is not consulted. -/
def ledgerFold (l : List LedgerEntry) (a : Nat) : Rat :=
  (l.filter (fun e => e.agent == a)).foldl foldStep 0

/-- The `getAgentBalance` handler of ledgerController.js (lines 59-99): the
query matches the agent by either field (identical in this model) and the
reduce re-checks the agent and folds Credit minus Debit over every matching
entry, without consulting `isInformational`. -/
def getAgentBalance (l : List LedgerEntry) (a : Nat) : Rat :=
  l.foldl (fun sum e => if e.agent == a then foldStep sum e else sum) 0

/-- Modelled from the spec (section 3, LedgerEntry invariant): an agent's
balance folds Credit minus Debit over the agent's entries where
`isInformational` is false.  This is the balance the claim asserts
`getAgentBalance` returns; it is compared against the code's fold. -/
def specAgentBalance (l : List LedgerEntry) (a : Nat) : Rat :=
  (l.filter (fun e => e.agent == a && !e.isInformational)).foldl foldStep 0

theorem foldl_foldStep_filter (p : LedgerEntry → Bool) (l : List LedgerEntry)
    (init : Rat) :
    (l.filter p).foldl foldStep init =
      l.foldl (fun s e => if p e then foldStep s e else s) init := by
  induction l generalizing init with
  | nil => rfl
  | cons e rest ih => by_cases he : p e <;> simp [he, ih]

theorem ledgerFold_eq_getAgentBalance (l : List LedgerEntry) (a : Nat) :
    ledgerFold l a = getAgentBalance l a := by
  rw [ledgerFold, getAgentBalance, foldl_foldStep_filter]

theorem ledgerFold_append (l₁ l₂ : List LedgerEntry) (a : Nat) :
    ledgerFold (l₁ ++ l₂) a =
      (l₂.filter (fun e => e.agent == a)).foldl foldStep (ledgerFold l₁ a) := by
  rw [ledgerFold, List.filter_append, List.foldl_append]
  rfl

theorem ledgerFold_append_single_credit (l : List LedgerEntry)
    (e : LedgerEntry) (a : Nat) (hAgent : e.agent = a)
    (hDir : e.direction = .credit) :
    ledgerFold (l ++ [e]) a = ledgerFold l a + e.amount := by
  rw [ledgerFold_append]
  simp [hAgent, hDir, foldStep]

theorem ledgerFold_append_single_debit (l : List LedgerEntry)
    (e : LedgerEntry) (a : Nat) (hAgent : e.agent = a)
    (hDir : e.direction = .debit) :
    ledgerFold (l ++ [e]) a = ledgerFold l a - e.amount := by
  rw [ledgerFold_append]
  simp [hAgent, hDir, foldStep]

theorem ledgerFold_pair (l : List LedgerEntry) (c d : LedgerEntry) (a : Nat)
    (hca : c.agent = a) (hda : d.agent = a) (hcd : c.direction = .credit)
    (hdd : d.direction = .debit) (hamt : c.amount = d.amount)
    (hpos : 0 ≤ c.amount) :
    ledgerFold (l ++ [c]) a ≥ ledgerFold l a ∧
    ledgerFold (l ++ [c, d]) a = ledgerFold l a := by
  have h1 : ledgerFold (l ++ [c]) a = ledgerFold l a + c.amount :=
    ledgerFold_append_single_credit l c a hca hcd
  have h2 : ledgerFold ((l ++ [c]) ++ [d]) a = ledgerFold (l ++ [c]) a - d.amount :=
    ledgerFold_append_single_debit (l ++ [c]) d a hda hdd
  constructor
  · rw [h1]; linarith
  · have hsplit : l ++ [c, d] = (l ++ [c]) ++ [d] := by simp
    rw [hsplit, h2, h1, hamt]; ring

/-- Example informational entry: a Debit posted to agent 1 with
`isInformational: true` (the shape `addPayment` posts to the trip creator's
ledger at tripController.js lines 707-722). -/
def exInfoEntry : LedgerEntry :=
  { id := 0, tripId := some 1, lrNumber := some "LR1",
    description := "On-trip payment (by another agent): fuel",
    entryType := "On-Trip Payment", amount := 100, balance := 0, agent := 1,
    direction := .debit, isInformational := true }

/-- C3 (code bug): the agent-balance query does not exclude entries flagged
`isInformational`.  On a ledger holding a single informational Debit of 100
for agent 1, `getAgentBalance` returns -100 while the balance the claim
specifies (fold over non-informational entries only) is 0, so posting an
informational entry does change the derived balance. -/
theorem C3_informational_entries_counted :
    getAgentBalance [exInfoEntry] 1 = -100 ∧
    specAgentBalance [exInfoEntry] 1 = 0 ∧
    getAgentBalance [exInfoEntry] 1 ≠ specAgentBalance [exInfoEntry] 1 := by
  refine ⟨?_, ?_, ?_⟩ <;>
    norm_num [getAgentBalance, specAgentBalance, foldStep, exInfoEntry]

/-! ## State-level operations: addPayment with its ledger entries -/

/-- Append a freshly created ledger document, consuming one generated id. -/
def appendEntry (st : St) (mk : Nat → LedgerEntry) : St :=
  { st with ledger := st.ledger ++ [mk st.nextId], nextId := st.nextId + 1 }

/-- The full `addPayment` handler (tripController.js lines 552-729): the trip
mutation of `addPaymentCore` followed by the ledger writes.  A Finance payment
creates a Top-up Credit for the selected agent and then an On-Trip Payment
Debit for the same agent; an Agent payment creates an On-Trip Payment Debit
for the payer and, when the payer differs from the trip creator, an
informational Debit for the creator. -/
def addPaymentS (st : St) (inp : PaymentInput) : Except String St :=
  match addPaymentCore st.trip inp with
  | .error e => .error e
  | .ok (t', target) =>
      let st₁ : St := { st with trip := t' }
      if inp.userRole = some "Finance" then
        let agentBalance := ledgerFold st₁.ledger target
        let st₂ := appendEntry st₁ (fun i =>
          { id := i, tripId := some t'.id, lrNumber := t'.lrNumber,
            description := "Top-up: Top up", entryType := "Top-up",
            amount := inp.amount, balance := agentBalance + inp.amount,
            agent := target, direction := .credit, isInformational := false })
        let st₃ := appendEntry st₂ (fun i =>
          { id := i, tripId := some t'.id, lrNumber := t'.lrNumber,
            description := "On-trip payment: " ++ inp.reason,
            entryType := "On-Trip Payment",
            amount := inp.amount, balance := t'.balance,
            agent := target, direction := .debit, isInformational := false })
        .ok st₃
      else
        let st₂ := appendEntry st₁ (fun i =>
          { id := i, tripId := some t'.id, lrNumber := t'.lrNumber,
            description := "On-trip payment: " ++ inp.reason,
            entryType := "On-Trip Payment",
            amount := inp.amount, balance := t'.balance,
            agent := target, direction := .debit, isInformational := false })
        let tripCreatorId := t'.agent
        if tripCreatorId ≠ target then
          let tripCreatorBalance := ledgerFold st₂.ledger tripCreatorId
          let st₃ := appendEntry st₂ (fun i =>
            { id := i, tripId := some t'.id, lrNumber := t'.lrNumber,
              description := "On-trip payment (by another agent): " ++ inp.reason,
              entryType := "On-Trip Payment",
              amount := inp.amount, balance := tripCreatorBalance,
              agent := tripCreatorId, direction := .debit,
              isInformational := true })
          .ok st₃
        else
          .ok st₂

/-- The Top-up Credit entry a Finance payment creates for the selected agent. -/
def financeCreditEntry (st : St) (inp : PaymentInput) (t' : Trip) (target : Nat) :
    LedgerEntry :=
  { id := st.nextId, tripId := some t'.id, lrNumber := t'.lrNumber,
    description := "Top-up: Top up", entryType := "Top-up",
    amount := inp.amount, balance := ledgerFold st.ledger target + inp.amount,
    agent := target, direction := .credit, isInformational := false }

/-- The On-Trip Payment Debit entry a Finance payment creates after the top-up. -/
def financeDebitEntry (st : St) (inp : PaymentInput) (t' : Trip) (target : Nat) :
    LedgerEntry :=
  { id := st.nextId + 1, tripId := some t'.id, lrNumber := t'.lrNumber,
    description := "On-trip payment: " ++ inp.reason,
    entryType := "On-Trip Payment",
    amount := inp.amount, balance := t'.balance,
    agent := target, direction := .debit, isInformational := false }

/-- C5: a Finance payment with no selected agent fails with the validation
error; with a selected agent `a` it succeeds and appends exactly two ledger
entries for `a` of the same amount, the mirror Top-up Credit strictly before
the On-Trip Payment Debit, and (for a non-negative amount) the folded balance
of `a` never drops below its starting value at any point of the pair. -/
theorem C5_finance_payment_pair (st : St) (inp : PaymentInput)
    (hActive : st.trip.status = "Active")
    (hRole : inp.userRole = some "Finance") :
    (inp.agentId = none →
      addPaymentS st inp = .error "Agent selection is required for Finance payments") ∧
    (∀ a, inp.agentId = some a →
      ∃ t' target, addPaymentCore st.trip inp = .ok (t', target) ∧ target = a ∧
        addPaymentS st inp = .ok
          { trip := t'
            ledger := st.ledger ++ [financeCreditEntry { st with trip := t' } inp t' a,
              financeDebitEntry { st with trip := t' } inp t' a]
            disputes := st.disputes
            nextId := st.nextId + 2 } ∧
        (financeCreditEntry { st with trip := t' } inp t' a).amount = inp.amount ∧
        (financeDebitEntry { st with trip := t' } inp t' a).amount = inp.amount ∧
        (financeCreditEntry { st with trip := t' } inp t' a).direction = .credit ∧
        (financeDebitEntry { st with trip := t' } inp t' a).direction = .debit ∧
        (financeCreditEntry { st with trip := t' } inp t' a).entryType = "Top-up" ∧
        (financeDebitEntry { st with trip := t' } inp t' a).entryType
          = "On-Trip Payment" ∧
        (0 ≤ inp.amount →
          ledgerFold (st.ledger ++ [financeCreditEntry { st with trip := t' } inp t' a])
              a ≥ ledgerFold st.ledger a ∧
          ledgerFold (st.ledger ++ [financeCreditEntry { st with trip := t' } inp t' a,
              financeDebitEntry { st with trip := t' } inp t' a]) a
            = ledgerFold st.ledger a)) := by
  constructor
  · intro hNone
    simp [addPaymentS, addPaymentCore, resolveTarget, hActive, hRole, hNone]
  · intro a hSome
    have hCore : addPaymentCore st.trip inp =
        .ok (recalcBalance { st.trip with onTripPayments := st.trip.onTripPayments ++
          [{ amount := inp.amount, reason := inp.reason,
             addedBy := inp.userId <|> some a,
             addedByRole := inp.userRole.getD "Agent" }] }, a) := by
      simp [addPaymentCore, resolveTarget, hActive, hRole, hSome]
    refine ⟨_, a, hCore, rfl, ?_, rfl, rfl, rfl, rfl, rfl, rfl, ?_⟩
    · simp only [addPaymentS, hCore, hRole, if_pos rfl]
      simp [appendEntry, financeCreditEntry, financeDebitEntry]
    · intro hAmt
      exact ledgerFold_pair st.ledger _ _ a rfl rfl rfl rfl rfl hAmt

/-- Example trip for state-level witnesses. -/
def exTrip : Trip :=
  { id := 1, lrNumber := some "LR1", tripIdField := some "LR1", isBulk := false,
    freight := 10000, advance := 2000, balance := 8000, finalBalance := 0,
    deductions := Deductions.zero, onTripPayments := [], status := "Active",
    agent := 7, closedBy := none }

/-- Example state: the trip above, an empty ledger, no disputes. -/
def exSt : St :=
  { trip := exTrip, ledger := [], disputes := [], nextId := 10 }

/-- Example Finance payment input selecting agent 3. -/
def exFinInput : PaymentInput :=
  { amount := 1500, reason := "fuel", mode := none, bank := none,
    agentId := some 3, userRole := some "Finance", userId := some 9 }

/-- Witness for C5 at a concrete Finance payment. -/
theorem C5_finance_payment_pair_witness :
    exSt.trip.status = "Active" ∧ exFinInput.userRole = some "Finance" ∧
    (∀ a, exFinInput.agentId = some a →
      ∃ t' target, addPaymentCore exSt.trip exFinInput = .ok (t', target) ∧
        target = a ∧
        addPaymentS exSt exFinInput = .ok
          { trip := t'
            ledger := exSt.ledger ++
              [financeCreditEntry { exSt with trip := t' } exFinInput t' a,
               financeDebitEntry { exSt with trip := t' } exFinInput t' a]
            disputes := exSt.disputes
            nextId := exSt.nextId + 2 } ∧
        (financeCreditEntry { exSt with trip := t' } exFinInput t' a).amount
          = exFinInput.amount ∧
        (financeDebitEntry { exSt with trip := t' } exFinInput t' a).amount
          = exFinInput.amount ∧
        (financeCreditEntry { exSt with trip := t' } exFinInput t' a).direction
          = .credit ∧
        (financeDebitEntry { exSt with trip := t' } exFinInput t' a).direction
          = .debit ∧
        (financeCreditEntry { exSt with trip := t' } exFinInput t' a).entryType
          = "Top-up" ∧
        (financeDebitEntry { exSt with trip := t' } exFinInput t' a).entryType
          = "On-Trip Payment" ∧
        (0 ≤ exFinInput.amount →
          ledgerFold (exSt.ledger ++
              [financeCreditEntry { exSt with trip := t' } exFinInput t' a]) a
            ≥ ledgerFold exSt.ledger a ∧
          ledgerFold (exSt.ledger ++
              [financeCreditEntry { exSt with trip := t' } exFinInput t' a,
               financeDebitEntry { exSt with trip := t' } exFinInput t' a]) a
            = ledgerFold exSt.ledger a)) :=
  ⟨rfl, rfl, (C5_finance_payment_pair exSt exFinInput rfl rfl).2⟩

/-! ## Description strings and the Beta/Batta description pattern -/

/-- Lower-cased character list of a string, for case-insensitive matching. -/
def lowerChars (s : String) : List Char := s.data.map Char.toLower

/-- Substring search on character lists. -/
def containsLC (pat : List Char) : List Char → Bool
  | [] => pat.isEmpty
  | c :: rest => pat.isPrefixOf (c :: rest) || containsLC pat rest

/-- The test `/Beta|Batta/i` applied to a description, as used by the
Settlement-entry upserts of `updateDeductions` and `closeTrip`. -/
def betaRegexMatch (s : String) : Bool :=
  containsLC "beta".data (lowerChars s) || containsLC "batta".data (lowerChars s)

/-- Rendering of a number into a template string. -/
def ratStr (q : Rat) : String := toString q

/-- JavaScript template interpolation of a possibly-undefined string. -/
def optStr (o : Option String) : String := o.getD "undefined"

/-- The description of the additions Settlement entry
(`Closing additions for ... by ... (Cess: ..., ..., Others: ...)`). -/
def additionsDesc (lr : Option String) (name : String) (d : Deductions) : String :=
  "Closing additions for " ++ optStr lr ++ " by " ++ name ++
    " (Cess: " ++ ratStr d.cess ++ ", Kata: " ++ ratStr d.kata ++
    ", Excess Tonnage: " ++ ratStr d.excessTonnage ++
    ", Halting: " ++ ratStr d.halting ++
    ", Expenses: " ++ ratStr d.expenses ++
    ", Others: " ++ ratStr d.others ++ ")"

/-- The description of the Beta Settlement entry
(`Beta/Batta deduction for ... by ... (Beta: ...)`). -/
def betaDesc (lr : Option String) (name : String) (beta : Rat) : String :=
  "Beta/Batta deduction for " ++ optStr lr ++ " by " ++ name ++
    " (Beta: " ++ ratStr beta ++ ")"

/-- Position-preserving lookup of the first entry satisfying a predicate,
standing in for `Ledger.findOne` (natural order, no sort). -/
def findEntryIdx (p : LedgerEntry → Bool) :
    List LedgerEntry → Option (Nat × LedgerEntry)
  | [] => none
  | e :: rest =>
      if p e then some (0, e)
      else (findEntryIdx p rest).map (fun ie => (ie.1 + 1, ie.2))

/-! ## closeTrip -/

/-- Sum of on-trip payments whose `addedByRole` is not Finance
(tripController.js lines 1132-1134). -/
def agentPaymentsSum (ps : List Payment) : Rat :=
  (ps.filter (fun p => !(p.addedByRole == "Finance"))).foldl (fun s p => s + p.amount) 0

/-- Sum of on-trip payments whose `addedByRole` is Finance
(tripController.js lines 1136-1138). -/
def financePaymentsSum (ps : List Payment) : Rat :=
  (ps.filter (fun p => p.addedByRole == "Finance")).foldl (fun s p => s + p.amount) 0

/-- The final balance `closeTrip` computes for a regular trip
(tripController.js line 1147). -/
def closeFinalBalance (t : Trip) : Rat :=
  (t.freight - t.advance) + totalAdditions t.deductions - t.deductions.beta
    - agentPaymentsSum t.onTripPayments + financePaymentsSum t.onTripPayments

/-- The `Dispute.findOne({ tripId, status: 'Open' })` existence check. -/
def openDisputeB (st : St) : Bool :=
  st.disputes.any (fun d => d.tripId == st.trip.id && d.status == "Open")

/-- The bulk-trip branch of `closeTrip` (tripController.js lines 1082-1086):
the status flips to Completed with no balance change and no ledger entry. -/
def bulkClose (st : St) : St :=
  { st with trip :=
      { st.trip with status := "Completed", closedBy := some st.trip.agent } }

/-- The additions half of the trip-creator Settlement entries of `closeTrip`
(tripController.js lines 1211-1240): create-only, keyed by tripId, creator,
type Settlement, direction Debit and a description not matching the
Beta/Batta pattern. -/
def creatorAdditionsEntry (names : Nat → Option String) (st : St) : St :=
  let trip := st.trip
  let d := trip.deductions
  let tAdds := totalAdditions d
  let tripCreatorId := trip.agent
  let name := (names (d.addedBy.getD trip.agent)).getD "Unknown Agent"
  if tAdds > 0 then
    match findEntryIdx (fun e => e.tripId == some trip.id &&
        e.agent == tripCreatorId && e.entryType == "Settlement" &&
        e.direction == .debit && !betaRegexMatch e.description) st.ledger with
    | some _ => st
    | none =>
        appendEntry st (fun i =>
          { id := i, tripId := some trip.id, lrNumber := trip.lrNumber,
            description := additionsDesc trip.lrNumber name d,
            entryType := "Settlement", amount := tAdds,
            balance := ledgerFold st.ledger tripCreatorId - tAdds,
            agent := tripCreatorId, direction := .debit,
            isInformational := false })
  else st

/-- The Beta half of the trip-creator Settlement entries of `closeTrip`
(tripController.js lines 1242-1272): create-only, keyed as above but with a
description matching the Beta/Batta pattern. -/
def creatorBetaEntry (names : Nat → Option String) (st : St) : St :=
  let trip := st.trip
  let betaAmount := trip.deductions.beta
  let tripCreatorId := trip.agent
  let name := (names (trip.deductions.addedBy.getD trip.agent)).getD "Unknown Agent"
  if betaAmount > 0 then
    match findEntryIdx (fun e => e.tripId == some trip.id &&
        e.agent == tripCreatorId && e.entryType == "Settlement" &&
        e.direction == .debit && betaRegexMatch e.description) st.ledger with
    | some _ => st
    | none =>
        appendEntry st (fun i =>
          { id := i, tripId := some trip.id, lrNumber := trip.lrNumber,
            description := betaDesc trip.lrNumber name betaAmount,
            entryType := "Settlement", amount := betaAmount,
            balance := ledgerFold st.ledger tripCreatorId - betaAmount,
            agent := tripCreatorId, direction := .debit,
            isInformational := false })
  else st

/-- The trip-creator Settlement entries of `closeTrip` (tripController.js
lines 1190-1276): when the deductions were added by someone other than the
trip creator, an additions entry and a Beta entry are created for the creator
unless matching entries already exist (create-only, never update). -/
def closeCreatorEntries (names : Nat → Option String) (st : St) : St :=
  let trip := st.trip
  let d := trip.deductions
  if (totalAdditions d > 0 || d.beta > 0) &&
      !(trip.agent == d.addedBy.getD trip.agent) then
    creatorBetaEntry names (creatorAdditionsEntry names st)
  else st

/-- The committing tail of `closeTrip` for regular trips (tripController.js
lines 1180-1343): creator entries, the status flip freezing `finalBalance`,
the informational Trip Closed entry for the closing agent, and the
Beta/Batta credit-back to the trip agent. -/
def closeCommit (names : Nat → Option String) (st : St) (closedBy : Option Nat)
    (closedByRole : Option String) : St :=
  let trip := st.trip
  let finalBalance := closeFinalBalance trip
  let betaAmount := trip.deductions.beta
  let st₁ := closeCreatorEntries names st
  let trip' :=
    { trip with
      status := "Completed", finalBalance := finalBalance
      closedBy := some (closedBy.getD trip.agent) }
  let st₂ := { st₁ with trip := trip' }
  let closingAgentId := closedBy.getD trip.agent
  let st₃ := appendEntry st₂ (fun i =>
    { id := i, tripId := some trip.id, lrNumber := trip.lrNumber,
      description := "Trip closed - Final settlement for " ++ optStr trip.lrNumber
        ++ " (Closed by: " ++ closedByRole.getD "Agent" ++ ")",
      entryType := "Trip Closed", amount := finalBalance,
      balance := ledgerFold st₂.ledger closingAgentId,
      agent := closingAgentId, direction := .debit, isInformational := true })
  if betaAmount > 0 then
    appendEntry st₃ (fun i =>
      { id := i, tripId := some trip.id, lrNumber := trip.lrNumber,
        description := "Beta/Batta credited back for " ++ optStr trip.lrNumber,
        entryType := "Beta/Batta Credit", amount := betaAmount,
        balance := ledgerFold st₃.ledger trip.agent + betaAmount,
        agent := trip.agent, direction := .credit, isInformational := false })
  else st₃

/-- The `closeTrip` handler (tripController.js lines 1059-1343): open-dispute
guard, unconditional bulk close, the Agent zero-balance guard, then the
committing tail above. -/
def closeTripS (names : Nat → Option String) (st : St) (force : Bool)
    (closedBy : Option Nat) (closedByRole : Option String) : Except String St :=
  if openDisputeB st && !force then
    .error "Cannot close trip with open dispute. Use forceClose=true for Admin/Finance override."
  else if st.trip.isBulk then
    .ok (bulkClose st)
  else
    let finalBalance := closeFinalBalance st.trip
    if closedByRole = some "Agent" ∧ |finalBalance| > 1/100 then
      if finalBalance > 1/100 then
        let closingAgentBalance :=
          match closedBy with
          | some c => ledgerFold st.ledger c
          | none => 0
        if closingAgentBalance < finalBalance then
          .error ("Your balance (Rs " ++ ratStr closingAgentBalance ++
            ") is not enough to close this trip. Required: Rs " ++ ratStr finalBalance)
        else
          .error ("Cannot close trip. Final balance must be 0. Please pay Rs " ++
            ratStr finalBalance ++ " first.")
      else
        .error ("Cannot close trip. Final balance must be 0. Current balance: Rs " ++
          ratStr finalBalance)
    else
      .ok (closeCommit names st closedBy closedByRole)

theorem appendEntry_trip (st : St) (mk : Nat → LedgerEntry) :
    (appendEntry st mk).trip = st.trip := rfl

theorem creatorAdditionsEntry_trip (names : Nat → Option String) (st : St) :
    (creatorAdditionsEntry names st).trip = st.trip := by
  rw [creatorAdditionsEntry]
  repeat' split
  all_goals rfl

theorem creatorBetaEntry_trip (names : Nat → Option String) (st : St) :
    (creatorBetaEntry names st).trip = st.trip := by
  rw [creatorBetaEntry]
  repeat' split
  all_goals rfl

theorem closeCreatorEntries_trip (names : Nat → Option String) (st : St) :
    (closeCreatorEntries names st).trip = st.trip := by
  rw [closeCreatorEntries]
  split
  · rw [creatorBetaEntry_trip, creatorAdditionsEntry_trip]
  · rfl

theorem closeCommit_finalBalance (names : Nat → Option String) (st : St)
    (cb : Option Nat) (role : Option String) :
    (closeCommit names st cb role).trip.finalBalance = closeFinalBalance st.trip := by
  rw [closeCommit]
  split
  · rfl
  · rfl

/-- Truth value of a handler succeeding. -/
def okB (r : Except String St) : Bool :=
  match r with
  | .ok _ => true
  | .error _ => false

/-- The stored state after a close request: unchanged when the handler
responds with an error status before mutating anything. -/
def closeStep (names : Nat → Option String) (st : St) (force : Bool)
    (closedBy : Option Nat) (closedByRole : Option String) : St :=
  match closeTripS names st force closedBy closedByRole with
  | .ok st' => st'
  | .error _ => st

/-- C2: when a non-bulk trip is closed, the frozen `finalBalance` equals
`(freight - advance) + (cess + kata + excessTonnage + halting + expenses +
others) - beta - Σ(non-Finance payments) + Σ(Finance payments)`. -/
theorem C2_final_close_balance (names : Nat → Option String) (st : St)
    (force : Bool) (cb : Option Nat) (role : Option String) (st' : St)
    (hOk : closeTripS names st force cb role = .ok st')
    (hBulk : st.trip.isBulk = false) :
    st'.trip.finalBalance = closeFinalBalance st.trip := by
  simp only [closeTripS] at hOk
  split at hOk
  · exact absurd hOk (fun h => Except.noConfusion h)
  · split at hOk
    · next hB =>
        rw [hBulk] at hB
        exact absurd hB (by simp)
    · split at hOk
      · split at hOk
        · split at hOk
          · exact absurd hOk (fun h => Except.noConfusion h)
          · exact absurd hOk (fun h => Except.noConfusion h)
        · exact absurd hOk (fun h => Except.noConfusion h)
      · rw [Except.ok.injEq] at hOk
        subst hOk
        exact closeCommit_finalBalance names st cb role

theorem close_dispute_guard_fails (names : Nat → Option String) (st : St)
    (cb : Option Nat) (role : Option String)
    (h1 : openDisputeB st = true) :
    okB (closeTripS names st false cb role) = false := by
  have hc : (openDisputeB st && !false) = true := by simp [h1]
  simp only [closeTripS, hc, if_true]
  rfl

theorem close_agent_guard_fails (names : Nat → Option String) (st : St)
    (force : Bool) (cb : Option Nat) (role : Option String)
    (hb : st.trip.isBulk = false) (hr : role = some "Agent")
    (hgt : |closeFinalBalance st.trip| > 1/100) :
    okB (closeTripS names st force cb role) = false := by
  simp only [closeTripS]
  split
  · rfl
  · split
    · next hB =>
        rw [hb] at hB
        exact absurd hB (by simp)
    · split
      · split
        · split
          · rfl
          · rfl
        · rfl
      · next hC => exact absurd ⟨hr, hgt⟩ hC

theorem closeStep_of_fail (names : Nat → Option String) (st : St) (force : Bool)
    (cb : Option Nat) (role : Option String)
    (h : okB (closeTripS names st force cb role) = false) :
    closeStep names st force cb role = st := by
  rw [closeStep]
  cases hr : closeTripS names st force cb role with
  | ok s => rw [hr] at h; exact absurd h (by simp [okB])
  | error e => rfl

/-- C6: close succeeds only when no Open dispute exists or forceClose is set,
and the trip is bulk, or the closer's role is not Agent, or the final balance
is within 0.01 of zero; and closing a non-bulk trip as Agent with
`|final| > 0.01` always fails, leaving the stored trip status unchanged. -/
theorem C6_close_guards (names : Nat → Option String) (st : St) (force : Bool)
    (cb : Option Nat) (role : Option String) :
    (okB (closeTripS names st force cb role) = true →
      ((openDisputeB st = false ∨ force = true) ∧
        (st.trip.isBulk = true ∨ ¬ role = some "Agent" ∨
          |closeFinalBalance st.trip| ≤ 1/100))) ∧
    (st.trip.isBulk = false → role = some "Agent" →
      |closeFinalBalance st.trip| > 1/100 →
      okB (closeTripS names st force cb role) = false ∧
      (closeStep names st force cb role).trip.status = st.trip.status) := by
  constructor
  · intro hOk
    constructor
    · by_cases h1 : openDisputeB st = true
      · by_cases h2 : force = true
        · exact Or.inr h2
        · exfalso
          have hforce : force = false := by
            cases force
            · rfl
            · exact absurd rfl h2
          rw [hforce] at hOk
          rw [close_dispute_guard_fails names st cb role h1] at hOk
          exact Bool.noConfusion hOk
      · exact Or.inl (by simpa using h1)
    · by_cases hb : st.trip.isBulk = true
      · exact Or.inl hb
      have hb' : st.trip.isBulk = false := by
        cases hbv : st.trip.isBulk
        · rfl
        · exact absurd hbv hb
      right
      by_cases hr : role = some "Agent"
      · right
        by_contra hle
        have hgt : |closeFinalBalance st.trip| > 1/100 := lt_of_not_le hle
        rw [close_agent_guard_fails names st force cb role hb' hr hgt] at hOk
        exact Bool.noConfusion hOk
      · exact Or.inl hr
  · intro hb hr hgt
    have hfail := close_agent_guard_fails names st force cb role hb hr hgt
    exact ⟨hfail, by rw [closeStep_of_fail names st force cb role hfail]⟩

/-- Example state for the C6 witness: an Active non-bulk trip whose close
final balance is 6400. -/
def exPayment6 : Payment :=
  { amount := 1500, reason := "fuel", addedBy := some 7, addedByRole := "Agent" }

def exSt6 : St :=
  { trip :=
      { exTrip with
        deductions := { Deductions.zero with cess := 200, beta := 300 }
        onTripPayments := [exPayment6] }
    ledger := [], disputes := [], nextId := 10 }

/-- Witness for C6: closing the example trip as Agent fails and leaves the
status Active; the success implication is instantiated on the failing run. -/
theorem C6_close_guards_witness :
    exSt6.trip.isBulk = false ∧ (some "Agent" : Option String) = some "Agent" ∧
    |closeFinalBalance exSt6.trip| > 1/100 ∧
    okB (closeTripS (fun _ => none) exSt6 false none (some "Agent")) = false ∧
    (closeStep (fun _ => none) exSt6 false none (some "Agent")).trip.status
      = exSt6.trip.status := by
  have hgt : |closeFinalBalance exSt6.trip| > 1/100 := by
    have hne : "Agent" ≠ "Finance" := by decide
    norm_num [closeFinalBalance, exSt6, exTrip, exPayment6, totalAdditions,
      Deductions.zero, agentPaymentsSum, financePaymentsSum, List.filter_cons,
      List.filter_nil, List.foldl_cons, List.foldl_nil, hne]
  have h := (C6_close_guards (fun _ => none) exSt6 false none (some "Agent")).2
    rfl rfl hgt
  exact ⟨rfl, rfl, hgt, h.1, h.2⟩

/-- Witness for C2: closing a concrete non-bulk trip as Finance freezes the
formula value into `finalBalance`. -/
theorem C2_final_close_balance_witness :
    ∃ st', closeTripS (fun _ => none) exSt false none (some "Finance") = .ok st' ∧
      exSt.trip.isBulk = false ∧
      st'.trip.finalBalance = closeFinalBalance exSt.trip := by
  refine ⟨closeStep (fun _ => none) exSt false none (some "Finance"), ?h1, rfl, ?h2⟩
  case h1 => rfl
  case h2 =>
    exact C2_final_close_balance (fun _ => none) exSt false none (some "Finance")
      _ rfl rfl

/-! ## transferToAgent and deleteLedgerEntry -/

/-- JavaScript truthiness of a possibly-undefined string field. -/
def jsTruthyStr (o : Option String) : Bool :=
  match o with
  | none => false
  | some s => !(s == "")

/-- The Debit entry `transferToAgent` creates for the sender
(ledgerController.js lines 268-282). -/
def transferDebitEntry (names : Nat → Option String) (st : St) (s r : Nat)
    (amount : Rat) (now : Nat) : LedgerEntry :=
  { id := st.nextId, tripId := none,
    lrNumber := some ("TRANSFER-" ++ toString now),
    description := "Payment transferred to " ++ optStr (names r),
    entryType := "Agent Transfer", amount := amount,
    balance := ledgerFold st.ledger s - amount,
    agent := s, direction := .debit, isInformational := false }

/-- The Credit entry `transferToAgent` creates for the receiver
(ledgerController.js lines 284-308); the receiver balance is folded after the
sender Debit has been inserted. -/
def transferCreditEntry (names : Nat → Option String) (st : St) (s r : Nat)
    (amount : Rat) (now : Nat) : LedgerEntry :=
  { id := st.nextId + 1, tripId := none,
    lrNumber := some ("TRANSFER-" ++ toString now),
    description := "Payment received from " ++ optStr (names s),
    entryType := "Agent Transfer", amount := amount,
    balance := ledgerFold (st.ledger ++ [transferDebitEntry names st s r amount now]) r
      + amount,
    agent := r, direction := .credit, isInformational := false }

/-- The `transferToAgent` handler (ledgerController.js lines 227-337):
id validations, self-transfer check, agent lookups, the sender balance check,
then the Debit/Credit pair sharing one `TRANSFER-<timestamp>` lrNumber. -/
def transferToAgentS (names : Nat → Option String) (users : List Nat) (st : St)
    (senderAgentId receiverAgentId : Option Nat) (amount : Rat) (now : Nat) :
    Except String St :=
  match senderAgentId, receiverAgentId with
  | none, _ => .error "senderAgentId and receiverAgentId are required"
  | some _, none => .error "senderAgentId and receiverAgentId are required"
  | some s, some r =>
      if s == r then .error "Cannot transfer to yourself"
      else if !(users.contains s) then .error "Sender agent not found"
      else if !(users.contains r) then .error "Receiver agent not found"
      else if ledgerFold st.ledger s < amount then .error "Insufficient balance"
      else
        .ok { st with
          ledger := st.ledger ++ [transferDebitEntry names st s r amount now,
            transferCreditEntry names st s r amount now]
          nextId := st.nextId + 2 }

/-- The stored state after a transfer request; unchanged when the handler
responds with an error status, since all checks precede any entry creation. -/
def transferStep (names : Nat → Option String) (users : List Nat) (st : St)
    (senderAgentId receiverAgentId : Option Nat) (amount : Rat) (now : Nat) : St :=
  match transferToAgentS names users st senderAgentId receiverAgentId amount now with
  | .ok st' => st'
  | .error _ => st

/-- The `deleteLedgerEntry` handler (ledgerController.js lines 458-522):
looks the entry up by id, restricts deletion to the allow-listed types, and
for an Agent Transfer with a truthy lrNumber first deletes the twin entry
(same lrNumber, different id, same type and amount). -/
def deleteLedgerEntryS (st : St) (id : Nat) : Except String St :=
  match st.ledger.find? (fun e => e.id == id) with
  | none => .error "Ledger entry not found"
  | some entry =>
      if !(["Top-up", "Virtual Top-up", "Agent Transfer"].contains entry.entryType) then
        .error "This type of ledger entry cannot be deleted"
      else
        let st₁ :=
          if entry.entryType == "Agent Transfer" && jsTruthyStr entry.lrNumber then
            match st.ledger.find? (fun e => e.lrNumber == entry.lrNumber &&
                !(e.id == id) && e.entryType == "Agent Transfer" &&
                e.amount == entry.amount) with
            | some twin =>
                { st with ledger := st.ledger.filter (fun e => !(e.id == twin.id)) }
            | none => st
          else st
        .ok { st₁ with ledger := st₁.ledger.filter (fun e => !(e.id == id)) }

theorem find?_eq_none_of (p : LedgerEntry → Bool) (l : List LedgerEntry)
    (h : ∀ e ∈ l, p e = false) : l.find? p = none := by
  rw [List.find?_eq_none]
  intro x hx
  simp [h x hx]

theorem find?_append_of_none (p : LedgerEntry → Bool) (l₁ l₂ : List LedgerEntry)
    (h : l₁.find? p = none) : (l₁ ++ l₂).find? p = l₂.find? p := by
  rw [List.find?_append, h, Option.none_or]

theorem filter_eq_self_of (p : LedgerEntry → Bool) (l : List LedgerEntry)
    (h : ∀ e ∈ l, p e = true) : l.filter p = l :=
  List.filter_eq_self.mpr (fun a ha => h a ha)

theorem transfer_lr_ne_empty (now : Nat) : ("TRANSFER-" ++ toString now) ≠ "" := by
  intro h
  have hd : ("TRANSFER-" ++ toString now).data = "".data := by rw [h]
  rw [String.data_append] at hd
  simp at hd

/-- C9: when the sender and receiver are valid distinct agents and the
sender's folded balance is below the transfer amount, `transferToAgent`
responds with the insufficient-balance error and the ledger state is
untouched (the balance check precedes every entry creation). -/
theorem C9_transfer_insufficient_balance (names : Nat → Option String)
    (users : List Nat) (st : St) (s0 r0 : Nat) (amount : Rat) (now : Nat)
    (hne : s0 ≠ r0) (hs : s0 ∈ users) (hr : r0 ∈ users)
    (hbal : ledgerFold st.ledger s0 < amount) :
    transferToAgentS names users st (some s0) (some r0) amount now
      = .error "Insufficient balance" ∧
    transferStep names users st (some s0) (some r0) amount now = st := by
  have h1 : transferToAgentS names users st (some s0) (some r0) amount now
      = .error "Insufficient balance" := by
    simp [transferToAgentS, hne, hs, hr, hbal]
  exact ⟨h1, by rw [transferStep, h1]⟩

/-- Example seed entry giving the example sender a standing balance. -/
def exTopUpEntry : LedgerEntry :=
  { id := 0, tripId := none, lrNumber := some "TOPUP-1",
    description := "Top-up: seed", entryType := "Top-up", amount := 500,
    balance := 500, agent := 2, direction := .credit, isInformational := false }

/-- Example state for transfer witnesses: agent 2 holds 500. -/
def exStT : St :=
  { trip := exTrip, ledger := [exTopUpEntry], disputes := [], nextId := 10 }

/-- Witness for C9: transferring 900 from agent 2 (balance 500) fails with the
insufficient-balance error and leaves the state unchanged. -/
theorem C9_transfer_insufficient_balance_witness :
    transferToAgentS (fun _ => none) [2, 3] exStT (some 2) (some 3) 900 42
      = .error "Insufficient balance" ∧
    transferStep (fun _ => none) [2, 3] exStT (some 2) (some 3) 900 42 = exStT := by
  have hbal : ledgerFold exStT.ledger 2 < 900 := by
    norm_num [ledgerFold, exStT, exTopUpEntry, foldStep, List.filter_cons,
      List.filter_nil, List.foldl_cons, List.foldl_nil]
  exact C9_transfer_insufficient_balance (fun _ => none) [2, 3] exStT 2 3 900 42
    (by decide) (by decide) (by decide) hbal

theorem transfer_lr_beq_empty_false (now : Nat) :
    (("TRANSFER-" ++ toString now) == "") = false :=
  beq_eq_false_iff_ne.mpr (transfer_lr_ne_empty now)

/-- C8: a transfer between two distinct valid agents with sufficient balance
appends exactly two Agent Transfer entries of equal amount and opposite
directions (sender Debit, receiver Credit), and deleting either entry of the
pair by id also deletes its twin, restoring the original ledger. -/
theorem C8_transfer_pair_twin_delete (names : Nat → Option String)
    (users : List Nat) (st : St) (s0 r0 : Nat) (amount : Rat) (now : Nat)
    (hne : s0 ≠ r0) (hs : s0 ∈ users) (hr : r0 ∈ users)
    (hbal : ¬ ledgerFold st.ledger s0 < amount)
    (hFresh : ∀ e ∈ st.ledger, e.lrNumber ≠ some ("TRANSFER-" ++ toString now))
    (hIds : ∀ e ∈ st.ledger, e.id < st.nextId) :
    transferToAgentS names users st (some s0) (some r0) amount now = .ok
      { st with
        ledger := st.ledger ++ [transferDebitEntry names st s0 r0 amount now,
          transferCreditEntry names st s0 r0 amount now]
        nextId := st.nextId + 2 } ∧
    (transferDebitEntry names st s0 r0 amount now).amount = amount ∧
    (transferCreditEntry names st s0 r0 amount now).amount = amount ∧
    (transferDebitEntry names st s0 r0 amount now).direction = .debit ∧
    (transferCreditEntry names st s0 r0 amount now).direction = .credit ∧
    (transferDebitEntry names st s0 r0 amount now).agent = s0 ∧
    (transferCreditEntry names st s0 r0 amount now).agent = r0 ∧
    (transferDebitEntry names st s0 r0 amount now).entryType = "Agent Transfer" ∧
    (transferCreditEntry names st s0 r0 amount now).entryType = "Agent Transfer" ∧
    deleteLedgerEntryS
      { st with
        ledger := st.ledger ++ [transferDebitEntry names st s0 r0 amount now,
          transferCreditEntry names st s0 r0 amount now]
        nextId := st.nextId + 2 }
      (transferDebitEntry names st s0 r0 amount now).id
      = .ok { st with nextId := st.nextId + 2 } ∧
    deleteLedgerEntryS
      { st with
        ledger := st.ledger ++ [transferDebitEntry names st s0 r0 amount now,
          transferCreditEntry names st s0 r0 amount now]
        nextId := st.nextId + 2 }
      (transferCreditEntry names st s0 r0 amount now).id
      = .ok { st with nextId := st.nextId + 2 } := by
  have hDebitId : (transferDebitEntry names st s0 r0 amount now).id = st.nextId := rfl
  have hCreditId : (transferCreditEntry names st s0 r0 amount now).id = st.nextId + 1 :=
    rfl
  have hLfindD : st.ledger.find? (fun e => e.id == st.nextId) = none := by
    refine find?_eq_none_of _ _ (fun e he => ?_)
    have h1 : e.id ≠ st.nextId := Nat.ne_of_lt (hIds e he)
    simp [h1]
  have hLfindC : st.ledger.find? (fun e => e.id == st.nextId + 1) = none := by
    refine find?_eq_none_of _ _ (fun e he => ?_)
    have h1 : e.id ≠ st.nextId + 1 :=
      Nat.ne_of_lt (Nat.lt_trans (hIds e he) (Nat.lt_succ_self _))
    simp [h1]
  have hKeepD : st.ledger.filter (fun e => !(e.id == st.nextId)) = st.ledger := by
    refine filter_eq_self_of _ _ (fun e he => ?_)
    have h1 : e.id ≠ st.nextId := Nat.ne_of_lt (hIds e he)
    simp [h1]
  have hKeepC : st.ledger.filter (fun e => !(e.id == st.nextId + 1)) = st.ledger := by
    refine filter_eq_self_of _ _ (fun e he => ?_)
    have h1 : e.id ≠ st.nextId + 1 :=
      Nat.ne_of_lt (Nat.lt_trans (hIds e he) (Nat.lt_succ_self _))
    simp [h1]
  have hTwinD : st.ledger.find? (fun e =>
      e.lrNumber == some ("TRANSFER-" ++ toString now) &&
      !(e.id == st.nextId) && e.entryType == "Agent Transfer" &&
      e.amount == amount) = none := by
    refine find?_eq_none_of _ _ (fun e he => ?_)
    have h1 : e.lrNumber ≠ some ("TRANSFER-" ++ toString now) := hFresh e he
    simp [h1]
  have hTwinC : st.ledger.find? (fun e =>
      e.lrNumber == some ("TRANSFER-" ++ toString now) &&
      !(e.id == st.nextId + 1) && e.entryType == "Agent Transfer" &&
      e.amount == amount) = none := by
    refine find?_eq_none_of _ _ (fun e he => ?_)
    have h1 : e.lrNumber ≠ some ("TRANSFER-" ++ toString now) := hFresh e he
    simp [h1]
  have hne1 : (st.nextId == st.nextId + 1) = false :=
    beq_eq_false_iff_ne.mpr (Nat.ne_of_lt (Nat.lt_succ_self _))
  have hne2 : (st.nextId + 1 == st.nextId) = false :=
    beq_eq_false_iff_ne.mpr (Nat.ne_of_gt (Nat.lt_succ_self _))
  refine ⟨by simp [transferToAgentS, hne, hs, hr, hbal], rfl, rfl, rfl, rfl, rfl, rfl,
    rfl, rfl, ?_, ?_⟩
  · rw [deleteLedgerEntryS]
    norm_num [List.find?_append, List.find?_cons, transferDebitEntry,
      transferCreditEntry, jsTruthyStr, transfer_lr_beq_empty_false, hLfindD,
      hTwinD, hne1, hne2, List.filter_append, hKeepC, hKeepD, Option.none_or]
  · rw [deleteLedgerEntryS]
    norm_num [List.find?_append, List.find?_cons, transferDebitEntry,
      transferCreditEntry, jsTruthyStr, transfer_lr_beq_empty_false, hLfindC,
      hTwinC, hne1, hne2, List.filter_append, hKeepC, hKeepD, Option.none_or]

/-- Witness for C8: a concrete 200 transfer from agent 2 to agent 3 appends
the Debit/Credit pair, and deleting either entry removes both. -/
theorem C8_transfer_pair_twin_delete_witness :
    transferToAgentS (fun _ => none) [2, 3] exStT (some 2) (some 3) 200 42 = .ok
      { exStT with
        ledger := exStT.ledger ++ [transferDebitEntry (fun _ => none) exStT 2 3 200 42,
          transferCreditEntry (fun _ => none) exStT 2 3 200 42]
        nextId := exStT.nextId + 2 } ∧
    deleteLedgerEntryS
      { exStT with
        ledger := exStT.ledger ++ [transferDebitEntry (fun _ => none) exStT 2 3 200 42,
          transferCreditEntry (fun _ => none) exStT 2 3 200 42]
        nextId := exStT.nextId + 2 }
      (transferDebitEntry (fun _ => none) exStT 2 3 200 42).id
      = .ok { exStT with nextId := exStT.nextId + 2 } ∧
    deleteLedgerEntryS
      { exStT with
        ledger := exStT.ledger ++ [transferDebitEntry (fun _ => none) exStT 2 3 200 42,
          transferCreditEntry (fun _ => none) exStT 2 3 200 42]
        nextId := exStT.nextId + 2 }
      (transferCreditEntry (fun _ => none) exStT 2 3 200 42).id
      = .ok { exStT with nextId := exStT.nextId + 2 } := by
  have hbal : ¬ ledgerFold exStT.ledger 2 < 200 := by
    norm_num [ledgerFold, exStT, exTopUpEntry, foldStep, List.filter_cons,
      List.filter_nil, List.foldl_cons, List.foldl_nil]
  have h := C8_transfer_pair_twin_delete (fun _ => none) [2, 3] exStT 2 3 200 42
    (by decide) (by decide) (by decide) hbal (by decide) (by decide)
  exact ⟨h.1, h.2.2.2.2.2.2.2.2.2.1, h.2.2.2.2.2.2.2.2.2.2⟩

/-! ## createTrip and the duplicate-LR check -/

/-- Whitespace predicate of JavaScript `String.prototype.trim`. -/
def isWsChar (c : Char) : Bool :=
  c == ' ' || c == '\t' || c == '\n' || c == '\r'

/-- JavaScript `trim()`: strip leading and trailing whitespace. -/
def jsTrim (s : String) : String :=
  ⟨((s.data.dropWhile isWsChar).reverse.dropWhile isWsChar).reverse⟩

/-- Lower-casing used to model the case-insensitive `^...$` regex match. -/
def jsToLower (s : String) : String :=
  ⟨s.data.map Char.toLower⟩

/-- Case-insensitive whole-field match of the anchored regex
`new RegExp('^' + trimmed + '$', 'i')` against a possibly-missing field;
a missing field never matches. -/
def eqCI (field : Option String) (x : String) : Bool :=
  match field with
  | none => false
  | some y => jsToLower y == jsToLower x

/-- The duplicate-LR message of `createTrip` (tripController.js line 252). -/
def dupLrMsg (lr : String) : String :=
  "LR Number \"" ++ lr ++
    "\" already exists in the system. Please search for this LR number using the search function or use a different LR number."

/-- The advance Debit entry `createTrip` posts for a non-bulk trip with a
positive advance (tripController.js lines 301-316). -/
def tripCreatedEntry (eid : Nat) (trip : Trip) (agentId : Nat) : LedgerEntry :=
  { id := eid
    tripId := some trip.id
    lrNumber := trip.lrNumber
    description := "Trip created (Advance paid: Rs " ++ ratStr trip.advance ++ ")"
    entryType := "Trip Created"
    amount := trip.advance
    balance := trip.balance
    agent := agentId
    direction := .debit
    isInformational := false }

/-- The `createTrip` handler (tripController.js lines 207-331): agentId and
driver-phone validation, the duplicate-LR check run only for a truthy
`lrNumber` (checked case-insensitively against both `lrNumber` and `tripId`
of existing trips), agent lookup, trip creation, and the advance Debit entry
for non-bulk trips with a positive advance. -/
def createTripS (users : List Nat) (existing : List Trip) (inp : CreateInput)
    (newTripId eid : Nat) : Except String (Trip × Option LedgerEntry) :=
  match inp.agentId with
  | none => .error "agentId is required"
  | some agentId =>
      match inp.driverPhoneNumber with
      | none => .error "Driver phone number is required"
      | some ph =>
          if jsTrim ph == "" then .error "Driver phone number is required"
          else
            let dup :=
              match inp.lrNumber with
              | none => false
              | some lrs =>
                  if lrs == "" then false
                  else existing.any (fun t =>
                    eqCI t.lrNumber (jsTrim lrs) || eqCI t.tripIdField (jsTrim lrs))
            if dup then .error (dupLrMsg (inp.lrNumber.getD ""))
            else if !(users.contains agentId) then .error "Agent not found"
            else
              let trip := mkNewTrip inp agentId newTripId
              let entry : Option LedgerEntry :=
                if !inp.isBulk && trip.advance > 0 then
                  some (tripCreatedEntry eid trip agentId)
                else none
              .ok (trip, entry)

/-- C10: the case-insensitive duplicate-LR check runs only when a non-empty
`lrNumber` is supplied.  When `lrNumber` is omitted (or empty) the check is
skipped entirely — creation succeeds against any existing trips and the new
trip carries no LR number — while a supplied non-empty `lrNumber` matching an
existing trip's `lrNumber` or `tripId` is rejected with the duplicate error. -/
theorem C10_duplicate_lr_check (users : List Nat) (existing : List Trip)
    (inp : CreateInput) (newTripId eid : Nat) (a : Nat) (ph : String)
    (hAgent : inp.agentId = some a) (hUser : a ∈ users)
    (hPhone : inp.driverPhoneNumber = some ph) (hPh : ¬ jsTrim ph = "") :
    (inp.lrNumber = none →
      createTripS users existing inp newTripId eid
        = .ok (mkNewTrip inp a newTripId,
            if !inp.isBulk && (mkNewTrip inp a newTripId).advance > 0 then
              some (tripCreatedEntry eid (mkNewTrip inp a newTripId) a)
            else none) ∧
      (mkNewTrip inp a newTripId).lrNumber = none) ∧
    (inp.lrNumber = some "" →
      (createTripS users existing inp newTripId eid).isOk = true) ∧
    (∀ lrs t, inp.lrNumber = some lrs → ¬ lrs = "" → t ∈ existing →
      (eqCI t.lrNumber (jsTrim lrs) || eqCI t.tripIdField (jsTrim lrs)) = true →
      createTripS users existing inp newTripId eid = .error (dupLrMsg lrs)) := by
  have hc : users.contains a = true := by
    rw [List.contains_iff_exists_mem_beq]
    exact ⟨a, hUser, by simp⟩
  refine ⟨?_, ?_, ?_⟩
  · intro hlr
    constructor
    · simp [createTripS, hAgent, hPhone, hPh, hlr, hc, hUser, mkNewTrip]
    · simp [mkNewTrip, hlr]
  · intro hlr
    simp [createTripS, hAgent, hPhone, hPh, hlr, hc, hUser, Except.isOk,
      Except.toBool]
  · intro lrs t hlr hne ht hmatch
    have hdup : existing.any (fun t =>
        eqCI t.lrNumber (jsTrim lrs) || eqCI t.tripIdField (jsTrim lrs)) = true :=
      List.any_eq_true.mpr ⟨t, ht, hmatch⟩
    simp [createTripS, hAgent, hPhone, hPh, hlr, hne, hdup]

/-- Witness for C10: creation with no LR number succeeds against an existing
trip, and re-using the existing trip's LR (differently cased) is rejected. -/
theorem C10_duplicate_lr_check_witness :
    ((exCreateInput : CreateInput).lrNumber = some "LR1" → True) ∧
    (createTripS [7] [exTrip]
        { exCreateInput with lrNumber := none } 5 6 = .ok
          (mkNewTrip { exCreateInput with lrNumber := none } 7 5,
            if !({ exCreateInput with lrNumber := none } : CreateInput).isBulk &&
                (mkNewTrip { exCreateInput with lrNumber := none } 7 5).advance > 0 then
              some (tripCreatedEntry 6 (mkNewTrip { exCreateInput with lrNumber := none } 7 5) 7)
            else none) ∧
      (mkNewTrip { exCreateInput with lrNumber := none } 7 5).lrNumber = none) ∧
    createTripS [7] [exTrip] { exCreateInput with lrNumber := some "lr1" } 5 6
      = .error (dupLrMsg "lr1") := by
  refine ⟨fun _ => trivial, ?_, ?_⟩
  · exact (C10_duplicate_lr_check [7] [exTrip] { exCreateInput with lrNumber := none }
      5 6 7 "999" rfl (by decide) rfl (by decide)).1 rfl
  · exact (C10_duplicate_lr_check [7] [exTrip]
      { exCreateInput with lrNumber := some "lr1" } 5 6 7 "999" rfl (by decide) rfl
      (by decide)).2.2 "lr1" exTrip rfl (by decide) (by simp) (by decide)

/-! ## updateDeductions ledger upserts -/

/-- The contributing agent of a deductions save
(`req.body.addedBy || trip.deductions?.addedBy || trip.agent` evaluated after
the merge, tripController.js line 867). -/
def dedAdder (t : Trip) : Nat :=
  t.deductions.addedBy.getD t.agent

/-- The base `findOne` filter of both Settlement upserts (tripController.js
lines 893-902 and 940-950): trip match by id or LR, the contributing agent,
type Settlement, direction Debit. -/
def settleBaseMatch (t : Trip) (adder : Nat) (e : LedgerEntry) : Bool :=
  (e.tripId == some t.id || e.lrNumber == t.lrNumber) && e.agent == adder &&
    e.entryType == "Settlement" && e.direction == Direction.debit

/-- The additions-entry lookup: base filter plus a description NOT matching
`/Beta|Batta/i`. -/
def addUpsertPred (t : Trip) (adder : Nat) (e : LedgerEntry) : Bool :=
  settleBaseMatch t adder e && !betaRegexMatch e.description

/-- The Beta-entry lookup: base filter plus a description matching
`/Beta|Batta/i`. -/
def betaUpsertPred (t : Trip) (adder : Nat) (e : LedgerEntry) : Bool :=
  settleBaseMatch t adder e && betaRegexMatch e.description

/-- The additions description generated for the current save. -/
def addDescOf (names : Nat → Option String) (t : Trip) : String :=
  additionsDesc t.lrNumber ((names (dedAdder t)).getD "Unknown Agent") t.deductions

/-- The Beta description generated for the current save. -/
def betaDescOf (names : Nat → Option String) (t : Trip) : String :=
  betaDesc t.lrNumber ((names (dedAdder t)).getD "Unknown Agent") t.deductions.beta

/-- The additions Settlement entry created when no existing entry matches. -/
def newAdditionsEntry (names : Nat → Option String) (st : St) : LedgerEntry :=
  { id := st.nextId
    tripId := some st.trip.id
    lrNumber := st.trip.lrNumber
    description := addDescOf names st.trip
    entryType := "Settlement"
    amount := totalAdditions st.trip.deductions
    balance := ledgerFold st.ledger (dedAdder st.trip)
      - totalAdditions st.trip.deductions
    agent := dedAdder st.trip
    direction := .debit
    isInformational := false }

/-- The Beta Settlement entry created when no existing entry matches. -/
def newBetaEntry (names : Nat → Option String) (st : St) : LedgerEntry :=
  { id := st.nextId
    tripId := some st.trip.id
    lrNumber := st.trip.lrNumber
    description := betaDescOf names st.trip
    entryType := "Settlement"
    amount := st.trip.deductions.beta
    balance := ledgerFold st.ledger (dedAdder st.trip) - st.trip.deductions.beta
    agent := dedAdder st.trip
    direction := .debit
    isInformational := false }

/-- The additions upsert of `updateDeductions` (tripController.js lines
891-936): the first matching entry is updated in place (amount and
description, then its balance snapshot from the post-update fold), otherwise
a new entry is appended. -/
def additionsUpsert (names : Nat → Option String) (st : St) : St :=
  let t := st.trip
  let adder := dedAdder t
  let tAdds := totalAdditions t.deductions
  if tAdds > 0 then
    match findEntryIdx (addUpsertPred t adder) st.ledger with
    | some (i, e) =>
        let e₁ := { e with amount := tAdds, description := addDescOf names t }
        let ledger₁ := st.ledger.set i e₁
        let e₂ := { e₁ with balance := ledgerFold ledger₁ adder }
        { st with ledger := ledger₁.set i e₂ }
    | none =>
        { st with
          ledger := st.ledger ++ [newAdditionsEntry names st]
          nextId := st.nextId + 1 }
  else st

/-- The Beta upsert of `updateDeductions` (tripController.js lines 938-982):
the first matching entry is updated in place (amount, description, and a
balance snapshot folded before the save, i.e. over the old amounts),
otherwise a new entry is appended. -/
def betaUpsert (names : Nat → Option String) (st : St) : St :=
  let t := st.trip
  let adder := dedAdder t
  let beta := t.deductions.beta
  if beta > 0 then
    match findEntryIdx (betaUpsertPred t adder) st.ledger with
    | some (i, e) =>
        let e₁ :=
          { e with
            amount := beta, description := betaDescOf names t
            balance := ledgerFold st.ledger adder }
        { st with ledger := st.ledger.set i e₁ }
    | none =>
        { st with
          ledger := st.ledger ++ [newBetaEntry names st]
          nextId := st.nextId + 1 }
  else st

/-- The full `updateDeductions` handler (tripController.js lines 808-986):
the trip mutation of `updateDeductionsCore`, then — when some deduction is
non-zero and the trip is Active — the additions upsert followed by the Beta
upsert on the contributing agent's ledger. -/
def updateDeductionsS (names : Nat → Option String) (st : St)
    (p : DeductionsPatch) : Except String St :=
  match updateDeductionsCore st.trip p with
  | .error e => .error e
  | .ok t' =>
      let st₁ : St := { st with trip := t' }
      if (totalAdditions t'.deductions > 0 ∨ t'.deductions.beta > 0) ∧
          t'.status = "Active" then
        .ok (betaUpsert names (additionsUpsert names st₁))
      else
        .ok st₁

/-- The stored state after a deductions save. -/
def updStep (names : Nat → Option String) (st : St) (p : DeductionsPatch) : St :=
  match updateDeductionsS names st p with
  | .ok st' => st'
  | .error _ => st

/-- Name directory for the C7 runs. -/
def exC7names : Nat → Option String := fun _ => some "John"

/-- A trip whose LR number contains the substring `BETA`. -/
def exC7Trip : Trip :=
  { exTrip with lrNumber := some "BETA-7", tripIdField := some "BETA-7" }

/-- Initial state of the C7 counterexample: empty ledger. -/
def exC7St : St :=
  { trip := exC7Trip, ledger := [], disputes := [], nextId := 0 }

/-- The deductions patch submitted twice: cess 100 and beta 50, added by
agent 7. -/
def exC7Patch : DeductionsPatch :=
  { cess := some 100, kata := none, excessTonnage := none, halting := none,
    expenses := none, beta := some 50, others := none, othersReason := none,
    addedBy := some 7, addedByRole := some "Agent" }

/-- C7 fails as stated: on a trip whose LR number is `BETA-7` the generated
additions description matches `/Beta|Batta/i`, so the first save's Beta
upsert overwrites the just-created additions entry (leaving zero additions
entries), and the second save appends a fresh entry instead of updating in
place — the ledger grows from one to two entries, so resubmitting the
identical patch is not idempotent on the ledger. -/
theorem C7_regex_upsert_counterexample :
    updateDeductionsS exC7names exC7St exC7Patch
      = .ok (updStep exC7names exC7St exC7Patch) ∧
    updateDeductionsS exC7names (updStep exC7names exC7St exC7Patch) exC7Patch
      = .ok (updStep exC7names (updStep exC7names exC7St exC7Patch) exC7Patch) ∧
    totalAdditions (mergedTrip exC7St.trip exC7Patch).deductions > 0 ∧
    ((updStep exC7names exC7St exC7Patch).ledger.filter
      (addUpsertPred (mergedTrip exC7St.trip exC7Patch)
        (dedAdder (mergedTrip exC7St.trip exC7Patch)))).length = 0 ∧
    (updStep exC7names exC7St exC7Patch).ledger.length = 1 ∧
    (updStep exC7names (updStep exC7names exC7St exC7Patch) exC7Patch).ledger.length
      = 2 := by
  refine ⟨rfl, rfl, by norm_num [mergedTrip, recalcBalance, mergeDeductions,
    totalAdditions, exC7St, exC7Trip, exTrip, exC7Patch, Deductions.zero], ?_, ?_, ?_⟩
  · rfl
  · rfl
  · rfl

theorem findEntryIdx_none (p : LedgerEntry → Bool) (l : List LedgerEntry)
    (h : ∀ e ∈ l, p e = false) : findEntryIdx p l = none := by
  induction l with
  | nil => rfl
  | cons e rest ih =>
      rw [findEntryIdx, if_neg (by simp [h e (List.mem_cons_self e rest)]),
        ih (fun x hx => h x (List.mem_cons_of_mem e hx))]
      rfl

theorem findEntryIdx_append_none (p : LedgerEntry → Bool) (l₁ l₂ : List LedgerEntry)
    (h : findEntryIdx p l₁ = none) :
    findEntryIdx p (l₁ ++ l₂)
      = (findEntryIdx p l₂).map (fun ie => (ie.1 + l₁.length, ie.2)) := by
  induction l₁ with
  | nil => simp
  | cons e rest ih =>
      by_cases hp : p e = true
      · rw [findEntryIdx, if_pos hp] at h
        exact absurd h (by simp)
      · rw [findEntryIdx, if_neg hp] at h
        have hrest : findEntryIdx p rest = none := by
          cases hfr : findEntryIdx p rest with
          | none => rfl
          | some ie => rw [hfr] at h; simp at h
        rw [List.cons_append, findEntryIdx, if_neg hp, ih hrest]
        cases hfl : findEntryIdx p l₂ with
        | none => rfl
        | some ie => simp [Nat.add_assoc]

theorem set_append_length (l₁ l₂ : List LedgerEntry) (a v : LedgerEntry) :
    (l₁ ++ a :: l₂).set l₁.length v = l₁ ++ v :: l₂ := by
  induction l₁ with
  | nil => rfl
  | cons e rest ih => simp [List.set, ih]

theorem set_append_length_succ (l₁ l₂ : List LedgerEntry) (a b v : LedgerEntry) :
    (l₁ ++ a :: b :: l₂).set (l₁.length + 1) v = l₁ ++ a :: v :: l₂ := by
  induction l₁ with
  | nil => rfl
  | cons e rest ih => simp [List.set, ih]

theorem filter_eq_nil_of (p : LedgerEntry → Bool) (l : List LedgerEntry)
    (h : ∀ e ∈ l, p e = false) : l.filter p = [] := by
  rw [List.filter_eq_nil_iff]
  intro a ha
  simp [h a ha]

theorem mergeDeductions_idem (d : Deductions) (p : DeductionsPatch) :
    mergeDeductions (mergeDeductions d p) p = mergeDeductions d p := by
  have h1 : ∀ (o : Option Rat) (x : Rat), o.getD (o.getD x) = o.getD x := by
    intro o x
    cases o <;> rfl
  have h2 : ∀ (o : Option String) (x : String), o.getD (o.getD x) = o.getD x := by
    intro o x
    cases o <;> rfl
  have h3 : ∀ (o o' : Option Nat), (o <|> (o <|> o')) = (o <|> o') := by
    intro o o'
    cases o <;> rfl
  have h4 : ∀ (o o' : Option String), (o <|> (o <|> o')) = (o <|> o') := by
    intro o o'
    cases o <;> rfl
  simp [mergeDeductions, h1, h2, h3, h4]

theorem mergedTrip_idem (t : Trip) (p : DeductionsPatch) :
    mergedTrip (mergedTrip t p) p = mergedTrip t p := by
  simp [mergedTrip, recalcBalance, mergeDeductions_idem, tripBalanceFormula,
    totalAdditions, totalPayments]

/-- C7 (amended): provided the generated additions description does not match
the `/Beta|Batta/i` pattern and the generated Beta description does — which
fails exactly when the LR number or the contributing agent's name contains
"Beta"/"Batta", see the counterexample — re-submitting the same deductions
patch twice on an Active trip with a ledger holding no Settlement entries for
this trip and agent yields exactly one additions entry and one Beta entry,
the second save updating the existing entries in place without growing the
ledger, with the entry amounts equal to the submitted totals. -/
theorem C7_amended_idempotent_upsert (names : Nat → Option String) (st : St)
    (p : DeductionsPatch)
    (hActive : st.trip.status = "Active")
    (hA : totalAdditions (mergedTrip st.trip p).deductions > 0)
    (hB : (mergedTrip st.trip p).deductions.beta > 0)
    (hFresh : ∀ e ∈ st.ledger,
      settleBaseMatch (mergedTrip st.trip p) (dedAdder (mergedTrip st.trip p)) e
        = false)
    (hD1 : betaRegexMatch (addDescOf names (mergedTrip st.trip p)) = false)
    (hD2 : betaRegexMatch (betaDescOf names (mergedTrip st.trip p)) = true) :
    ∃ st₁ st₂,
      updateDeductionsS names st p = .ok st₁ ∧
      updateDeductionsS names st₁ p = .ok st₂ ∧
      st₂.ledger.length = st₁.ledger.length ∧
      (st₂.ledger.filter (addUpsertPred (mergedTrip st.trip p)
        (dedAdder (mergedTrip st.trip p)))).length = 1 ∧
      (st₂.ledger.filter (betaUpsertPred (mergedTrip st.trip p)
        (dedAdder (mergedTrip st.trip p)))).length = 1 ∧
      (∀ e ∈ st₂.ledger.filter (addUpsertPred (mergedTrip st.trip p)
          (dedAdder (mergedTrip st.trip p))),
        e.amount = totalAdditions (mergedTrip st.trip p).deductions) ∧
      (∀ e ∈ st₂.ledger.filter (betaUpsertPred (mergedTrip st.trip p)
          (dedAdder (mergedTrip st.trip p))),
        e.amount = (mergedTrip st.trip p).deductions.beta) := by
  set t' := mergedTrip st.trip p with ht'
  have hStatus' : t'.status = "Active" := hActive
  have hCore1 : updateDeductionsCore st.trip p = .ok t' := by
    rw [updateDeductionsCore, if_neg (by rw [hActive]; decide)]
  have hCond : (totalAdditions t'.deductions > 0 ∨ t'.deductions.beta > 0) ∧
      t'.status = "Active" := ⟨Or.inl hA, hStatus'⟩
  have hAddPredF : ∀ e ∈ st.ledger, addUpsertPred t' (dedAdder t') e = false := by
    intro e he
    simp [addUpsertPred, hFresh e he]
  have hBetaPredF : ∀ e ∈ st.ledger, betaUpsertPred t' (dedAdder t') e = false := by
    intro e he
    simp [betaUpsertPred, hFresh e he]
  have h1 : updateDeductionsS names st p
      = .ok (betaUpsert names (additionsUpsert names { st with trip := t' })) := by
    simp only [updateDeductionsS, hCore1]
    rw [if_pos hCond]
  have hAdd1 : additionsUpsert names { st with trip := t' }
      = { st with
          trip := t'
          ledger := st.ledger ++ [newAdditionsEntry names { st with trip := t' }]
          nextId := st.nextId + 1 } := by
    rw [additionsUpsert]
    simp only []
    rw [if_pos hA, findEntryIdx_none _ _ hAddPredF]
  set A := newAdditionsEntry names { st with trip := t' } with hAdef
  have hAadd : addUpsertPred t' (dedAdder t') A = true := by
    simp [hAdef, addUpsertPred, settleBaseMatch, newAdditionsEntry, hD1]
  have hAbeta : betaUpsertPred t' (dedAdder t') A = false := by
    simp [hAdef, betaUpsertPred, settleBaseMatch, newAdditionsEntry, hD1]
  set STB : St :=
    { st with
      trip := t'
      ledger := st.ledger ++ [A]
      nextId := st.nextId + 1 } with hSTBdef
  have hBetaPredF1 : ∀ e ∈ st.ledger ++ [A], betaUpsertPred t' (dedAdder t') e
      = false := by
    intro e he
    rcases List.mem_append.mp he with h | h
    · exact hBetaPredF e h
    · rw [List.mem_singleton.mp h]
      exact hAbeta
  set B := newBetaEntry names STB with hBdef
  have hBeta1 : betaUpsert names STB
      = { st with
          trip := t'
          ledger := (st.ledger ++ [A]) ++ [B]
          nextId := st.nextId + 2 } := by
    rw [betaUpsert]
    simp only []
    rw [if_pos hB, findEntryIdx_none _ _ hBetaPredF1]
  have hBadd : addUpsertPred t' (dedAdder t') B = false := by
    simp [hBdef, addUpsertPred, settleBaseMatch, newBetaEntry, hD2]
  have hBbeta : betaUpsertPred t' (dedAdder t') B = true := by
    simp [hBdef, betaUpsertPred, settleBaseMatch, newBetaEntry, hD2]
  set ST1 : St :=
    { st with
      trip := t'
      ledger := (st.ledger ++ [A]) ++ [B]
      nextId := st.nextId + 2 } with hST1def
  have hRun1 : updateDeductionsS names st p = .ok ST1 := by
    rw [h1, hAdd1, hBeta1]
  have hidem : mergedTrip t' p = t' := by
    rw [ht']
    exact mergedTrip_idem st.trip p
  have hCore2 : updateDeductionsCore ST1.trip p = .ok t' := by
    rw [updateDeductionsCore,
      if_neg (by rw [(hStatus' : ST1.trip.status = "Active")]; decide)]
    show Except.ok (mergedTrip t' p) = Except.ok t'
    rw [hidem]
  have h2 : updateDeductionsS names ST1 p
      = .ok (betaUpsert names (additionsUpsert names { ST1 with trip := t' })) := by
    simp only [updateDeductionsS, hCore2]
    rw [if_pos hCond]
  have hST1eta : ({ ST1 with trip := t' } : St) = ST1 := rfl
  have hfind2 : findEntryIdx (addUpsertPred t' (dedAdder t'))
      ((st.ledger ++ [A]) ++ [B]) = some (st.ledger.length, A) := by
    rw [List.append_assoc,
      findEntryIdx_append_none _ _ _ (findEntryIdx_none _ _ hAddPredF)]
    simp only [List.cons_append, List.nil_append]
    rw [findEntryIdx, if_pos hAadd]
    simp
  set A2 : LedgerEntry :=
    { A with balance := ledgerFold (st.ledger ++ A :: [B]) (dedAdder t') }
    with hA2def
  have hE1 : ({ A with
      amount := totalAdditions t'.deductions
      description := addDescOf names t' } : LedgerEntry) = A := by
    rw [hAdef]
    simp [newAdditionsEntry]
  have hset1 : ((st.ledger ++ [A]) ++ [B]).set st.ledger.length
      ({ A with
        amount := totalAdditions t'.deductions
        description := addDescOf names t' } : LedgerEntry)
      = st.ledger ++ A :: [B] := by
    rw [hE1, List.append_assoc]
    simp only [List.cons_append, List.nil_append]
    exact set_append_length st.ledger [B] A A
  have hAdd2 : additionsUpsert names ST1
      = { st with
          trip := t'
          ledger := st.ledger ++ A2 :: [B]
          nextId := st.nextId + 2 } := by
    rw [additionsUpsert, hST1def]
    simp only []
    rw [if_pos hA, hfind2]
    simp only []
    rw [hset1]
    rw [set_append_length st.ledger [B] A]
    rw [hA2def, hAdef]
    simp [newAdditionsEntry]
  have hA2add : addUpsertPred t' (dedAdder t') A2 = true := by
    simp [hA2def, hAdef, addUpsertPred, settleBaseMatch, newAdditionsEntry, hD1]
  have hA2beta : betaUpsertPred t' (dedAdder t') A2 = false := by
    simp [hA2def, hAdef, betaUpsertPred, settleBaseMatch, newAdditionsEntry, hD1]
  have hfind3 : findEntryIdx (betaUpsertPred t' (dedAdder t'))
      (st.ledger ++ A2 :: [B]) = some (st.ledger.length + 1, B) := by
    rw [findEntryIdx_append_none _ _ _ (findEntryIdx_none _ _ hBetaPredF)]
    rw [findEntryIdx, if_neg (by rw [hA2beta]; decide)]
    rw [findEntryIdx, if_pos hBbeta]
    simp [Nat.add_comm]
  set B2 : LedgerEntry :=
    { B with balance := ledgerFold (st.ledger ++ A2 :: [B]) (dedAdder t') }
    with hB2def
  have hBeta2 : betaUpsert names
      { st with
        trip := t'
        ledger := st.ledger ++ A2 :: [B]
        nextId := st.nextId + 2 }
      = { st with
          trip := t'
          ledger := st.ledger ++ A2 :: [B2]
          nextId := st.nextId + 2 } := by
    rw [betaUpsert]
    simp only []
    rw [if_pos hB, hfind3]
    simp only []
    rw [set_append_length_succ st.ledger [] A2 B]
    rw [hB2def, hBdef]
    simp [newBetaEntry]
  have hRun2 : updateDeductionsS names ST1 p = .ok
      { st with
        trip := t'
        ledger := st.ledger ++ A2 :: [B2]
        nextId := st.nextId + 2 } := by
    rw [h2, hST1eta, hAdd2, hBeta2]
  have hB2add : addUpsertPred t' (dedAdder t') B2 = false := by
    simp [hB2def, hBdef, addUpsertPred, settleBaseMatch, newBetaEntry, hD2]
  have hB2beta : betaUpsertPred t' (dedAdder t') B2 = true := by
    simp [hB2def, hBdef, betaUpsertPred, settleBaseMatch, newBetaEntry, hD2]
  have hfa : (st.ledger ++ A2 :: [B2]).filter (addUpsertPred t' (dedAdder t'))
      = [A2] := by
    rw [List.filter_append, filter_eq_nil_of _ _ hAddPredF]
    simp [List.filter_cons, hA2add, hB2add]
  have hfb : (st.ledger ++ A2 :: [B2]).filter (betaUpsertPred t' (dedAdder t'))
      = [B2] := by
    rw [List.filter_append, filter_eq_nil_of _ _ hBetaPredF]
    simp [List.filter_cons, hA2beta, hB2beta]
  refine ⟨ST1, _, hRun1, hRun2, ?_, ?_, ?_, ?_, ?_⟩
  · rw [hST1def]
    simp [List.length_append]
  · rw [hfa]
    rfl
  · rw [hfb]
    rfl
  · rw [hfa]
    intro e he
    rw [List.mem_singleton.mp he, hA2def, hAdef]
    simp [newAdditionsEntry]
  · rw [hfb]
    intro e he
    rw [List.mem_singleton.mp he, hB2def, hBdef]
    simp [newBetaEntry]

/-- Initial state for the C7 witness: the LR number `LR1` is free of the
Beta/Batta pattern. -/
def exC7CleanSt : St :=
  { trip := exTrip, ledger := [], disputes := [], nextId := 0 }

/-- Witness for the amended C7 at a concrete clean input. -/
theorem C7_amended_idempotent_upsert_witness :
    ∃ st₁ st₂,
      updateDeductionsS exC7names exC7CleanSt exC7Patch = .ok st₁ ∧
      updateDeductionsS exC7names st₁ exC7Patch = .ok st₂ ∧
      st₂.ledger.length = st₁.ledger.length ∧
      (st₂.ledger.filter (addUpsertPred (mergedTrip exC7CleanSt.trip exC7Patch)
        (dedAdder (mergedTrip exC7CleanSt.trip exC7Patch)))).length = 1 ∧
      (st₂.ledger.filter (betaUpsertPred (mergedTrip exC7CleanSt.trip exC7Patch)
        (dedAdder (mergedTrip exC7CleanSt.trip exC7Patch)))).length = 1 ∧
      (∀ e ∈ st₂.ledger.filter (addUpsertPred (mergedTrip exC7CleanSt.trip exC7Patch)
          (dedAdder (mergedTrip exC7CleanSt.trip exC7Patch))),
        e.amount = totalAdditions (mergedTrip exC7CleanSt.trip exC7Patch).deductions) ∧
      (∀ e ∈ st₂.ledger.filter (betaUpsertPred (mergedTrip exC7CleanSt.trip exC7Patch)
          (dedAdder (mergedTrip exC7CleanSt.trip exC7Patch))),
        e.amount = (mergedTrip exC7CleanSt.trip exC7Patch).deductions.beta) :=
  C7_amended_idempotent_upsert exC7names exC7CleanSt exC7Patch rfl
    (by decide) (by decide) (by simp [exC7CleanSt]) (by decide) (by decide)

/-! ## resolveDispute corrections -/

/-- The nine correctable financial fields of `resolveDispute`. -/
inductive CorrField where
  | freight
  | advance
  | cess
  | kata
  | excessTonnage
  | halting
  | expenses
  | beta
  | others
deriving DecidableEq, Fintype, Repr

/-- The capitalised field label used in the entry type and description
(`fieldName.charAt(0).toUpperCase() + fieldName.slice(1)`; Freight and
Advance are hardcoded in their own blocks). -/
def corrFieldLabel : CorrField → String
  | .freight => "Freight"
  | .advance => "Advance"
  | .cess => "Cess"
  | .kata => "Kata"
  | .excessTonnage => "ExcessTonnage"
  | .halting => "Halting"
  | .expenses => "Expenses"
  | .beta => "Beta"
  | .others => "Others"

/-- The ledger entry type of a field correction
(`Dispute - <Label> Correction`). -/
def corrType (f : CorrField) : String :=
  "Dispute - " ++ corrFieldLabel f ++ " Correction"

/-- The prior value of a correctable field, read from the snapshot taken
before any mutation (ledgerController.js lines 775-778). -/
def oldValOf (t : Trip) : CorrField → Rat
  | .freight => t.freight
  | .advance => t.advance
  | .cess => t.deductions.cess
  | .kata => t.deductions.kata
  | .excessTonnage => t.deductions.excessTonnage
  | .halting => t.deductions.halting
  | .expenses => t.deductions.expenses
  | .beta => t.deductions.beta
  | .others => t.deductions.others

/-- The corrections supplied in the `resolveDispute` request body. -/
structure DisputePatch where
  newFreight : Option Rat
  newAdvance : Option Rat
  cess : Option Rat
  kata : Option Rat
  excessTonnage : Option Rat
  halting : Option Rat
  expenses : Option Rat
  beta : Option Rat
  others : Option Rat
  othersReason : Option String
deriving DecidableEq, Repr

/-- The supplied new value for a correctable field (undefined fields are
skipped by `processDeduction` and the freight/advance blocks). -/
def patchOf (p : DisputePatch) : CorrField → Option Rat
  | .freight => p.newFreight
  | .advance => p.newAdvance
  | .cess => p.cess
  | .kata => p.kata
  | .excessTonnage => p.excessTonnage
  | .halting => p.halting
  | .expenses => p.expenses
  | .beta => p.beta
  | .others => p.others

/-- The direction convention of the source (ledgerController.js lines
824-849, 955, 979): freight increase is a Credit, everything else increases
as a Debit. -/
def corrDir : CorrField → Rat → Direction
  | .freight, diff => if diff > 0 then .credit else .debit
  | _, diff => if diff > 0 then .debit else .credit

/-- Modelled from the spec (claim C4 sign convention), for comparison with
the source's `corrDir`: Credit when freight increases, Debit when freight
decreases; Debit when advance or any deduction category (including beta)
increases, Credit when it decreases. -/
def claimCorrDir : CorrField → Rat → Direction
  | .freight, delta => if delta > 0 then .credit else .debit
  | .advance, delta => if delta > 0 then .debit else .credit
  | _, delta => if delta > 0 then .debit else .credit

/-- The single correction entry a field produces: none when the field is not
supplied or its delta is zero, otherwise magnitude `|delta|` with the
source's direction convention (`processDeduction` and the freight/advance
ledger blocks, ledgerController.js lines 808-899 and 951-999). -/
def corrEntry (t : Trip) (p : DisputePatch) (f : CorrField) : Option LedgerEntry :=
  match patchOf p f with
  | none => none
  | some v =>
      let diff := v - oldValOf t f
      if diff = 0 then none
      else some
        { id := 0
          tripId := some t.id
          lrNumber := t.lrNumber
          description := "Dispute Resolution - " ++ corrFieldLabel f ++
            " Correction (" ++ optStr t.lrNumber ++ ")"
          entryType := corrType f
          amount := |diff|
          balance := 0
          agent := t.agent
          direction := corrDir f diff
          isInformational := false }

/-- The processing order of `resolveDispute`: the deduction categories via
`processDeduction`, then beta, then the freight and advance blocks. -/
def resolveFieldsOrder : List CorrField :=
  [.cess, .kata, .excessTonnage, .halting, .expenses, .others, .beta,
    .freight, .advance]

/-- Every correction entry `resolveDispute` posts, in posting order. -/
def disputeCorrEntries (t : Trip) (p : DisputePatch) : List LedgerEntry :=
  resolveFieldsOrder.filterMap (corrEntry t p)

/-- The trip as mutated by `resolveDispute`: supplied fields replaced, the
balance recomputed from the corrected fields and the unchanged payment list,
and the status restored to Active (ledgerController.js lines 794-947). -/
def applyPatchToTrip (t : Trip) (p : DisputePatch) : Trip :=
  let d := t.deductions
  let d' : Deductions :=
    { d with
      cess := p.cess.getD d.cess
      kata := p.kata.getD d.kata
      excessTonnage := p.excessTonnage.getD d.excessTonnage
      halting := p.halting.getD d.halting
      expenses := p.expenses.getD d.expenses
      beta := p.beta.getD d.beta
      others := p.others.getD d.others
      othersReason := p.othersReason.getD d.othersReason }
  let freight' := p.newFreight.getD t.freight
  let advance' := p.newAdvance.getD t.advance
  { t with
    deductions := d'
    freight := freight'
    advance := advance'
    balance := (freight' - advance') + totalAdditions d' - d'.beta
      - totalPayments t.onTripPayments
    status := "Active" }

/-- The `resolveDispute` handler (ledgerController.js lines 736-1041),
restricted to the dispute-status guard, the trip mutation and the correction
entries (ids assigned in posting order). -/
def resolveDisputeS (st : St) (dStatus : String) (p : DisputePatch) :
    Except String St :=
  if dStatus == "Resolved" then .error "Dispute is already resolved"
  else
    .ok { st with
      trip := applyPatchToTrip st.trip p
      ledger := st.ledger ++ (disputeCorrEntries st.trip p).enum.map
        (fun ie => { ie.2 with id := st.nextId + ie.1 })
      nextId := st.nextId + (disputeCorrEntries st.trip p).length }

theorem corrEntry_entryType (t : Trip) (p : DisputePatch) (f : CorrField)
    (e : LedgerEntry) (h : corrEntry t p f = some e) : e.entryType = corrType f := by
  rw [corrEntry] at h
  split at h
  · exact absurd h (by simp)
  · simp only [] at h
    split at h
    · exact absurd h (by simp)
    · rw [Option.some.injEq] at h
      rw [← h]

theorem corrType_injective (f g : CorrField) (h : corrType f = corrType g) :
    f = g := by
  have hall : ∀ f g : CorrField, corrType f = corrType g → f = g := by decide
  exact hall f g h

theorem filter_corrType_not_mem (t : Trip) (p : DisputePatch) (f : CorrField)
    (l : List CorrField) (hf : f ∉ l) :
    (l.filterMap (corrEntry t p)).filter (fun e => e.entryType == corrType f)
      = [] := by
  induction l with
  | nil => rfl
  | cons g rest ih =>
      have hfg : f ≠ g := fun he => hf (he ▸ List.mem_cons_self g rest)
      have hrest : f ∉ rest := fun hm => hf (List.mem_cons_of_mem g hm)
      rw [List.filterMap_cons]
      cases hg : corrEntry t p g with
      | none => exact ih hrest
      | some e =>
          rw [List.filter_cons]
          have hty : (e.entryType == corrType f) = false := by
            rw [corrEntry_entryType t p g e hg]
            exact beq_eq_false_iff_ne.mpr
              (fun hc => hfg (corrType_injective f g hc.symm))
          rw [hty]
          simp only [Bool.false_eq_true, if_false]
          exact ih hrest

theorem filter_corrType_mem (t : Trip) (p : DisputePatch) (f : CorrField)
    (l : List CorrField) (hf : f ∈ l) (hnd : l.Nodup) :
    (l.filterMap (corrEntry t p)).filter (fun e => e.entryType == corrType f)
      = (corrEntry t p f).toList := by
  induction l with
  | nil => exact absurd hf (List.not_mem_nil f)
  | cons g rest ih =>
      have hnd' : rest.Nodup := (List.nodup_cons.mp hnd).2
      rw [List.filterMap_cons]
      by_cases hfg : f = g
      · subst hfg
        have hrest : f ∉ rest := (List.nodup_cons.mp hnd).1
        cases hg : corrEntry t p f with
        | none =>
            rw [filter_corrType_not_mem t p f rest hrest]
            rfl
        | some e =>
            rw [List.filter_cons]
            have hty : (e.entryType == corrType f) = true := by
              rw [corrEntry_entryType t p f e hg]
              exact beq_self_eq_true (corrType f)
            rw [hty]
            simp only [if_true]
            rw [filter_corrType_not_mem t p f rest hrest]
            rfl
      · have hfrest : f ∈ rest := by
          rcases List.mem_cons.mp hf with h | h
          · exact absurd h hfg
          · exact h
        cases hg : corrEntry t p g with
        | none => exact ih hfrest hnd'
        | some e =>
            rw [List.filter_cons]
            have hty : (e.entryType == corrType f) = false := by
              rw [corrEntry_entryType t p g e hg]
              exact beq_eq_false_iff_ne.mpr
                (fun hc => hfg (corrType_injective f g hc.symm))
            rw [hty]
            simp only [Bool.false_eq_true, if_false]
            exact ih hfrest hnd'

/-- C4: among the entries `resolveDispute` posts, those of a given field's
correction type are exactly: none when the field is not supplied or its
delta is zero, and a single entry of magnitude `|delta|` otherwise, directed
by the claim's sign convention — Credit/Debit for a freight
increase/decrease, Debit/Credit for an increase/decrease of advance or any
deduction category including beta. -/
theorem C4_dispute_correction_entries (t : Trip) (p : DisputePatch)
    (f : CorrField) :
    (disputeCorrEntries t p).filter (fun e => e.entryType == corrType f)
      = (match patchOf p f with
         | none => []
         | some v =>
             if v - oldValOf t f = 0 then []
             else [{ id := 0
                     tripId := some t.id
                     lrNumber := t.lrNumber
                     description := "Dispute Resolution - " ++ corrFieldLabel f ++
                       " Correction (" ++ optStr t.lrNumber ++ ")"
                     entryType := corrType f
                     amount := |v - oldValOf t f|
                     balance := 0
                     agent := t.agent
                     direction := claimCorrDir f (v - oldValOf t f)
                     isInformational := false }]) := by
  rw [disputeCorrEntries,
    filter_corrType_mem t p f resolveFieldsOrder (by cases f <;> decide)
      (by decide)]
  rw [corrEntry]
  cases hp : patchOf p f with
  | none => rfl
  | some v =>
      simp only []
      by_cases hd : v - oldValOf t f = 0
      · simp only [if_pos hd]
        rfl
      · simp only [if_neg hd]
        have hdir : corrDir f (v - oldValOf t f)
            = claimCorrDir f (v - oldValOf t f) := by
          cases f <;> rfl
        simp only [Option.toList, hdir]
end TMS
